import Mathlib

/-!
Verification development for the qps-counter repository.

The Go source is shallowly embedded: every stateful component becomes a
structure whose methods are pure state-passing functions of an explicit
`now` parameter (Go reads `time.Now().UnixNano()` inside the methods).
Go `int64` values are modelled as `Int`; all quantities involved
(nanosecond timestamps, counts, shard numbers) stay far below `2^63`, so
no wrap-around is modelled.  Go integer division and remainder truncate
toward zero, which is `Int.tdiv` and `Int.tmod`.
-/

namespace QPSCounter

/-! ### Slots (internal/counter: lock-free and sharded ring cells) -/

/-- One ring cell: a `(timestamp, count)` pair of Go `int64`s.
Shared by the lock-free variant (two atomics) and the sharded variant
(a lock-protected struct); in this sequential embedding both reduce to
a plain pair. -/
structure Slot where
  timestamp : Int
  count : Int
deriving DecidableEq

/-- Go panics modelled as error values: `close` of an already closed
channel panics at run time. -/
inductive GoPanic where
  | closeOfClosedChannel
deriving DecidableEq

/-! ### Lock-free sliding-window counter (`LockFreeWindow`) -/

/-- State of `LockFreeWindow`: the counter config fields it reads
(`Precision`, `WindowSize` in nanoseconds), the slot ring, whether
`stopChan` has been closed, and the auxiliary `totalCount` atomic. -/
structure LockFreeWindow where
  precision : Int
  windowSize : Int
  slots : List Slot
  stopped : Bool
  totalCount : Int
deriving DecidableEq

/-- Constructor `NewLockFree`: `slotNum` zero slots, open stop channel. -/
def NewLockFree (precision windowSize : Int) (slotNum : Nat) : LockFreeWindow :=
  { precision := precision
    windowSize := windowSize
    slots := List.replicate slotNum ⟨0, 0⟩
    stopped := false
    totalCount := 0 }

/-- Slot index chosen by `Incr` and addressed arithmetic:
`idx = (now / precision) % int64(len(slots))`. -/
def LockFreeWindow.idxAt (lfw : LockFreeWindow) (now : Int) : Nat :=
  ((now.tdiv lfw.precision).tmod (lfw.slots.length : Int)).toNat

/-- One iteration of the body of `LockFreeWindow.Incr`s CAS retry loop,
with `now` the value of `time.Now().UnixNano()`.

In a sequential execution the `CompareAndSwap` always succeeds when it
is attempted (nobody changed the slot since the `Load`), and an
iteration in which neither branch fires leaves the state untouched, so
the loop exits on the first iteration or never: `none` means that no
branch fires and the loop retries forever on identical state
(see `LockFreeWindow.IncrLoop`). -/
def LockFreeWindow.Incr (lfw : LockFreeWindow) (now : Int) : Option LockFreeWindow :=
  let precision := lfw.precision
  let idx := lfw.idxAt now
  let s := lfw.slots.getD idx ⟨0, 0⟩
  if s.timestamp.tdiv precision = now.tdiv precision then
    some { lfw with
            slots := lfw.slots.set idx ⟨s.timestamp, s.count + 1⟩
            totalCount := lfw.totalCount + 1 }
  else if s.timestamp = 0 ∨ s.timestamp < now - precision then
    some { lfw with
            slots := lfw.slots.set idx ⟨now, 1⟩
            totalCount := lfw.totalCount + 1 }
  else
    none

/-- The CAS retry loop of `Incr`, with explicit fuel: retrying re-runs
the same iteration on the unchanged state. -/
def LockFreeWindow.IncrLoop : Nat → LockFreeWindow → Int → Option LockFreeWindow
  | 0, _, _ => none
  | fuel + 1, lfw, now =>
    match lfw.Incr now with
    | some st => some st
    | none => LockFreeWindow.IncrLoop fuel lfw now

/-- Sum a slot list through the read-side filter of `CurrentQPS`:
slots whose stored timestamp is at least `windowStart` contribute their
count. -/
def windowTotal : Int → List Slot → Int
  | _, [] => 0
  | windowStart, s :: rest =>
    (if windowStart ≤ s.timestamp then s.count else 0) + windowTotal windowStart rest

/-- Read path `LockFreeWindow.CurrentQPS`: filter by
`timestamp >= now - windowSize`, then scale the window total by
`int64(time.Second) / int64(windowSize)` in Go int64 arithmetic. -/
def LockFreeWindow.CurrentQPS (lfw : LockFreeWindow) (now : Int) : Int :=
  let windowStart := now - lfw.windowSize
  let total := windowTotal windowStart lfw.slots
  (total * 1000000000).tdiv lfw.windowSize

/-- Cleaner body `LockFreeWindow.cleanupExpired`: zero every slot with
`0 < timestamp < now - windowSize`, then recompute `totalCount` over
the surviving in-window slots. -/
def LockFreeWindow.cleanupExpired (lfw : LockFreeWindow) (now : Int) : LockFreeWindow :=
  let windowStart := now - lfw.windowSize
  let slots := lfw.slots.map fun s =>
    if 0 < s.timestamp ∧ s.timestamp < windowStart then (⟨0, 0⟩ : Slot) else s
  { lfw with
      slots := slots
      totalCount := windowTotal windowStart slots }

/-- Teardown `LockFreeWindow.Stop`: the Go body is a bare
`close(lfw.stopChan)`, and closing an already-closed channel panics. -/
def LockFreeWindow.Stop (lfw : LockFreeWindow) : Except GoPanic LockFreeWindow :=
  if lfw.stopped then .error .closeOfClosedChannel
  else .ok { lfw with stopped := true }

/-- Fold `Incr` over a list of call times (sequential single-threaded
trace); `none` as soon as one call diverges. -/
def LockFreeWindow.IncrAll : LockFreeWindow → List Int → Option LockFreeWindow
  | lfw, [] => some lfw
  | lfw, t :: rest =>
    match lfw.Incr t with
    | some st => st.IncrAll rest
    | none => none

/-! ### Sharded sliding-window counter (`ShardedWindow`) -/

/-- State of `ShardedWindow`: config fields (`Precision`, `WindowSize`,
`SlotNum`), the two-dimensional slot ring, the stop channel flag and
the `totalCount` atomic.  The per-slot and per-shard locks serialize
accesses; in this sequential embedding every method body runs atomically
so the locks have no residue. -/
structure ShardedWindow where
  precision : Int
  windowSize : Int
  slotNum : Int
  shards : List (List Slot)
  stopped : Bool
  totalCount : Int
deriving DecidableEq

/-- Constructor `NewSharded`: the Go code fixes
`shardNum = runtime.NumCPU() * 4`; the CPU count is a run-time input,
so it is a parameter here.  `slotNum` comes from the config. -/
def NewSharded (precision windowSize : Int) (shardNum slotNum : Nat) : ShardedWindow :=
  { precision := precision
    windowSize := windowSize
    slotNum := (slotNum : Int)
    shards := List.replicate shardNum (List.replicate slotNum ⟨0, 0⟩)
    stopped := false
    totalCount := 0 }

/-- Shard index of an `Incr` at `now`:
`(now / precisionNano) % int64(len(shards))`. -/
def ShardedWindow.shardIdxAt (sw : ShardedWindow) (now : Int) : Nat :=
  ((now.tdiv sw.precision).tmod (sw.shards.length : Int)).toNat

/-- Slot index of an `Incr` at `now`:
`(now / precisionNano) % int64(slotNum)`. -/
def ShardedWindow.slotIdxAt (sw : ShardedWindow) (now : Int) : Nat :=
  ((now.tdiv sw.precision).tmod sw.slotNum).toNat

/-- Write path `ShardedWindow.Incr`: pick shard and slot from the call
time, refresh the slot timestamp to the bucket start
`slotTime = now - (now % precisionNano)` if it is older, increment the
slot count (never resetting it), and bump `totalCount`. -/
def ShardedWindow.Incr (sw : ShardedWindow) (now : Int) : ShardedWindow :=
  let slotTime := now - now.tmod sw.precision
  let shardID := sw.shardIdxAt now
  let slotID := sw.slotIdxAt now
  let sh := sw.shards.getD shardID []
  let s := sh.getD slotID ⟨0, 0⟩
  let ts := if s.timestamp < slotTime then slotTime else s.timestamp
  { sw with
      shards := sw.shards.set shardID (sh.set slotID ⟨ts, s.count + 1⟩)
      totalCount := sw.totalCount + 1 }

/-- Shard-level analogue of `windowTotal`: the total the sharded read
loop accumulates over a list of shards. -/
def shardsWindowTotal : Int → List (List Slot) → Int
  | _, [] => 0
  | windowStart, sh :: rest =>
    windowTotal windowStart sh + shardsWindowTotal windowStart rest

/-- Read path `ShardedWindow.CurrentQPS`: sum every slot of every shard
through the `timestamp >= now - windowSize` filter and scale by
`int64(time.Second) / int64(windowSize)`. -/
def ShardedWindow.CurrentQPS (sw : ShardedWindow) (now : Int) : Int :=
  let windowStart := now - sw.windowSize
  let total := shardsWindowTotal windowStart sw.shards
  (total * 1000000000).tdiv sw.windowSize

/-- Cleaner body `ShardedWindow.cleanupExpired`: per shard, build a
fresh slot array keeping only in-window slots (zeroing the rest), swap
it in, and store the recomputed in-window total into `totalCount`. -/
def ShardedWindow.cleanupExpired (sw : ShardedWindow) (now : Int) : ShardedWindow :=
  let windowStart := now - sw.windowSize
  let shards := sw.shards.map fun sh =>
    sh.map fun s => if windowStart ≤ s.timestamp then s else (⟨0, 0⟩ : Slot)
  { sw with
      shards := shards
      totalCount := shardsWindowTotal windowStart sw.shards }

/-- Teardown `ShardedWindow.Stop`: also a bare `close(sw.stopChan)`. -/
def ShardedWindow.Stop (sw : ShardedWindow) : Except GoPanic ShardedWindow :=
  if sw.stopped then .error .closeOfClosedChannel
  else .ok { sw with stopped := true }

/-- Fold `ShardedWindow.Incr` over a list of call times. -/
def ShardedWindow.IncrAll : ShardedWindow → List Int → ShardedWindow
  | sw, [] => sw
  | sw, t :: rest => (sw.Incr t).IncrAll rest

/-! ### Shared background component (`BaseComponent`) -/

/-- State of `BaseComponent`: only the stop channel matters here.  Its
`Stop` method guards the `close` with a non-blocking receive, so a
second call is a no-op instead of a panic. -/
structure BaseComponent where
  stopClosed : Bool
deriving DecidableEq

/-- Guarded teardown `BaseComponent.Stop`: if `stopChan` is already
closed it returns without closing again; otherwise it closes it.  It
never panics. -/
def BaseComponent.Stop (bc : BaseComponent) : Except GoPanic BaseComponent :=
  if bc.stopClosed then .ok bc
  else .ok { bc with stopClosed := true }

/-! ### Configuration and validation (`internal/config/config.go`) -/

/-- Server section of the configuration; durations in nanoseconds. -/
structure ServerConfig where
  port : Int
  readTimeout : Int
  writeTimeout : Int
deriving DecidableEq

/-- Counter section of the configuration. -/
structure CounterConfig where
  type : String
  windowSize : Int
  slotNum : Int
  precision : Int
deriving DecidableEq

/-- Logger section of the configuration (not validated). -/
structure LoggerConfig where
  level : String
  format : String
  filePath : String
  maxSize : Int
  maxBackups : Int
  maxAge : Int
deriving DecidableEq

/-- Limiter section of the configuration. -/
structure LimiterConfig where
  enabled : Bool
  rate : Int
  burst : Int
  adaptive : Bool
deriving DecidableEq

/-- Metrics section of the configuration. -/
structure MetricsConfig where
  enabled : Bool
  interval : Int
  endpoint : String
deriving DecidableEq

/-- Shutdown section of the configuration. -/
structure ShutdownConfig where
  timeout : Int
  maxWait : Int
deriving DecidableEq

/-- The full configuration record. -/
structure AppConfig where
  server : ServerConfig
  counter : CounterConfig
  logger : LoggerConfig
  limiter : LimiterConfig
  metrics : MetricsConfig
  shutdown : ShutdownConfig
deriving DecidableEq

/-- The body of `validateConfig`: the checks in source order, returning
the first error (as `config.Load` surfaces it) or `none` on success. -/
def validateConfig (cfg : AppConfig) : Option String :=
  if cfg.counter.windowSize ≤ 0 then some "invalid counter config window_size"
  else if cfg.counter.slotNum ≤ 0 then some "invalid counter config slot_num"
  else if cfg.counter.precision ≤ 0 then some "invalid counter config precision"
  else if cfg.server.port ≤ 0 ∨ 65535 < cfg.server.port then some "invalid server port"
  else if cfg.limiter.enabled ∧ cfg.limiter.rate ≤ 0 then some "invalid limiter rate"
  else if cfg.limiter.enabled ∧ cfg.limiter.burst ≤ 0 then some "invalid limiter burst"
  else if cfg.metrics.enabled ∧ cfg.metrics.interval ≤ 0 then some "invalid metrics interval"
  else if cfg.shutdown.timeout ≤ 0 then some "invalid shutdown timeout"
  else if cfg.shutdown.maxWait ≤ 0 then some "invalid shutdown max wait"
  else none

/-! ### Token-bucket rate limiter (`internal/limiter/rate_limiter.go`) -/

/-- State of `RateLimiter`; times in nanoseconds, token counts int64. -/
structure RateLimiter where
  rate : Int
  burstSize : Int
  tokens : Int
  lastRefill : Int
  enabled : Bool
  adaptive : Bool
  rejectedCount : Int
  totalCount : Int
deriving DecidableEq

/-- Constructor `NewRateLimiter`: starts full and enabled; `now` is the
construction-time clock reading stored into `lastRefill`. -/
def NewRateLimiter (rate burstSize : Int) (adaptive : Bool) (now : Int) : RateLimiter :=
  { rate := rate
    burstSize := burstSize
    tokens := burstSize
    lastRefill := now
    enabled := true
    adaptive := adaptive
    rejectedCount := 0
    totalCount := 0 }

/-- `RateLimiter.Allow` at clock reading `now`: a disabled limiter
admits immediately without touching any state; otherwise count the
request, refill `elapsed · rate` tokens (clamped at `burstSize`,
`lastRefill` advanced only when at least one token accrues), then admit
by consuming a token or reject.

The Go code computes the refill as
`int64(elapsed.Seconds() * float64(rate))` in binary64; it is modelled
here as the exact `(Δns · rate) / 10⁹` truncated toward zero, which
agrees with the float computation except when the true product lies
within one unit in the last place of an integer, a regime none of the
theorems below depend on. -/
def RateLimiter.Allow (rl : RateLimiter) (now : Int) : RateLimiter × Bool :=
  if !rl.enabled then (rl, true)
  else
    let rl1 : RateLimiter := { rl with totalCount := rl.totalCount + 1 }
    let newTokens := ((now - rl1.lastRefill) * rl1.rate).tdiv 1000000000
    let rl2 : RateLimiter :=
      if 0 < newTokens then
        { rl1 with
            tokens := if rl1.burstSize < rl1.tokens + newTokens then rl1.burstSize
                      else rl1.tokens + newTokens
            lastRefill := now }
      else rl1
    if 0 < rl2.tokens then ({ rl2 with tokens := rl2.tokens - 1 }, true)
    else ({ rl2 with rejectedCount := rl2.rejectedCount + 1 }, false)

/-- `RateLimiter.SetRate`: store the new rate. -/
def RateLimiter.SetRate (rl : RateLimiter) (newRate : Int) : RateLimiter :=
  { rl with rate := newRate }

/-- `RateLimiter.SetEnabled`: live enable or disable. -/
def RateLimiter.SetEnabled (rl : RateLimiter) (enabled : Bool) : RateLimiter :=
  { rl with enabled := enabled }

/-- `RateLimiter.SetTokensForTest`: store the given token count
unconditionally (no clamping against `burstSize`). -/
def RateLimiter.SetTokensForTest (rl : RateLimiter) (tokens : Int) : RateLimiter :=
  { rl with tokens := tokens }

/-- One operation of the limiter's public mutating surface. -/
inductive LimiterOp where
  | allow (now : Int)
  | setRate (newRate : Int)
  | setEnabled (enabled : Bool)
  | setTokensForTest (tokens : Int)
deriving DecidableEq

/-- Run a sequence of limiter operations sequentially; the second
component counts the `Allow` calls that returned `true` while the
limiter was enabled. -/
def RunOps : RateLimiter → List LimiterOp → RateLimiter × Int
  | rl, [] => (rl, 0)
  | rl, .allow now :: rest =>
    let ar := rl.Allow now
    let res := RunOps ar.1 rest
    (res.1, res.2 + (if ar.2 && rl.enabled then 1 else 0))
  | rl, .setRate r :: rest => RunOps (rl.SetRate r) rest
  | rl, .setEnabled e :: rest => RunOps (rl.SetEnabled e) rest
  | rl, .setTokensForTest t :: rest => RunOps (rl.SetTokensForTest t) rest

/-- Side condition on an operation: `SetTokensForTest` arguments stay
inside `[0, burst]`; every other operation is unrestricted. -/
def tokensOpOK (burst : Int) : LimiterOp → Bool
  | .setTokensForTest t => decide (0 ≤ t ∧ t ≤ burst)
  | _ => true

/-! ### Enhanced graceful shutdown (`enhanced_graceful_shutdown`) -/

/-- Go error values returned by `Shutdown`. -/
inductive GoError where
  | deadlineExceeded
deriving DecidableEq

/-- How the drain race resolves inside `Shutdown`: the wait group
finishes before the soft timeout, between the soft and the hard
timeout, or not before the hard timeout.  This abstracts the select
over `done`, `shutdownCtx.Done()` and `maxWaitCtx.Done()`. -/
inductive DrainOutcome where
  | graceful
  | delayed
  | forced
deriving DecidableEq

/-- State of `EnhancedGracefulShutdown`: configuration, the two
channels, the `sync.Once`, the atomics and the status string. -/
structure EnhancedGracefulShutdown where
  shutdownTimeout : Int
  maxWaitTime : Int
  doneClosed : Bool
  onceDone : Bool
  shutdownStarted : Bool
  activeRequests : Int
  shutdownStatus : String
  forceShutdown : Bool
  stopClosed : Bool
deriving DecidableEq

/-- Constructor `NewEnhancedGracefulShutdown`: a non-positive `maxWait`
defaults to twice the timeout; status starts as running. -/
def NewEnhancedGracefulShutdown (timeout maxWait : Int) : EnhancedGracefulShutdown :=
  { shutdownTimeout := timeout
    maxWaitTime := if maxWait ≤ 0 then timeout * 2 else maxWait
    doneClosed := false
    onceDone := false
    shutdownStarted := false
    activeRequests := 0
    shutdownStatus := "running"
    forceShutdown := false
    stopClosed := false }

/-- `StartRequest`: reject when shutdown has started, otherwise count
the request in.  The Go code increments and then re-checks
`shutdownStarted` with a rollback; in a sequential step no shutdown
can interleave, so the re-check always passes. -/
def EnhancedGracefulShutdown.StartRequest (gs : EnhancedGracefulShutdown) :
    EnhancedGracefulShutdown × Bool :=
  if gs.shutdownStarted then (gs, false)
  else ({ gs with activeRequests := gs.activeRequests + 1 }, true)

/-- `EndRequest`: one request done. -/
def EnhancedGracefulShutdown.EndRequest (gs : EnhancedGracefulShutdown) :
    EnhancedGracefulShutdown :=
  { gs with activeRequests := gs.activeRequests - 1 }

/-- `Shutdown`: the body is guarded by `shutdownOnce.Do`, and the
returned `shutdownErr` is a local of each call, assigned only inside
the `Do` body.  A first call marks shutdown started, closes the stop
channel, waits out the drain (the resolution of that race is the
`DrainOutcome` parameter), records the terminal status and force flag,
closes `doneChan`, and returns `context.DeadlineExceeded` exactly in
the forced case.  Any later call skips the body and returns its own
still-nil `shutdownErr`. -/
def EnhancedGracefulShutdown.Shutdown (gs : EnhancedGracefulShutdown)
    (outcome : DrainOutcome) : EnhancedGracefulShutdown × Option GoError :=
  if gs.onceDone then (gs, none)
  else
    ({ gs with
        onceDone := true
        shutdownStarted := true
        stopClosed := true
        doneClosed := true
        shutdownStatus :=
          match outcome with
          | .graceful => "graceful_shutdown_complete"
          | .delayed => "delayed_shutdown_complete"
          | .forced => "force_shutdown"
        forceShutdown := match outcome with | .forced => true | _ => false },
     match outcome with | .forced => some .deadlineExceeded | _ => none)

/-- `IsForceShutdown`. -/
def EnhancedGracefulShutdown.IsForceShutdown (gs : EnhancedGracefulShutdown) : Bool :=
  gs.forceShutdown

/-! ### Enhanced adaptive sharding controller
(`internal/counter/enhanced_adaptive_sharding.go`) -/

/-- Decision core of `EnhancedAdaptiveShardingManager.adjustShards`,
taking as inputs what the Go body reads: the live memory figure and
threshold, the fresh and previous QPS samples (`lastQPS.Swap`), and the
current, minimum and maximum shard counts.  Returns the shard count in
effect after the step.

Number representation: Go computes `qpsChangeRate` and the thresholds
in binary64; it is modelled here over exact rationals, which agrees
with the float comparison except when the true ratio lies within one
unit in the last place of 0.3, a regime none of the theorems below
depend on.  The scale factor `int32(float64(currentShards) * 0.5)` is
exact in binary64 for every int32 and equals truncating division by
two. -/
def EnhancedAdjustShards (memoryUsage memoryThreshold : Int) (currentQPS lastQPS : Int)
    (currentShards minShards maxShards : Int) : Int :=
  let qpsChangeRate : ℚ :=
    if 0 < lastQPS then ((currentQPS : ℚ) - (lastQPS : ℚ)) / (lastQPS : ℚ) else 0
  if memoryThreshold < memoryUsage ∧ minShards < currentShards then
    minShards
  else if 3 / 10 < qpsChangeRate ∧ currentShards < maxShards then
    let newShards := currentShards + currentShards.tdiv 2
    if maxShards < newShards then maxShards else newShards
  else if qpsChangeRate < -(3 / 10) ∧ minShards < currentShards then
    let newShards := currentShards - currentShards.tdiv 2
    if newShards < minShards then minShards else newShards
  else
    currentShards

/-! ### HTTP collect handlers (`internal/api/handler.go` and the
fasthttp handler) -/

/-- Result of one `/collect` request: HTTP status, number of
`counter.Incr()` calls performed, and the lifecycle and limiter states
after the handler returns (the deferred `EndRequest` included). -/
structure CollectResult where
  status : Nat
  incrCalls : Nat
  gs : EnhancedGracefulShutdown
  rl : RateLimiter
deriving DecidableEq

/-- `QPSHandler.Collect` (gin): lifecycle gate first (503 when
draining), then the limiter (429), then JSON binding (400 on parse
failure, modelled as `body = none`), then `count` increments — the loop
`for i := int64(0); i < req.Count; i++` performs `max(count, 0)`
iterations — and 202. -/
def QPSHandlerCollect (gs : EnhancedGracefulShutdown) (rl : RateLimiter) (now : Int)
    (body : Option Int) : CollectResult :=
  let sr := gs.StartRequest
  if !sr.2 then ⟨503, 0, sr.1, rl⟩
  else
    let ar := rl.Allow now
    if !ar.2 then ⟨429, 0, sr.1.EndRequest, ar.1⟩
    else
      match body with
      | none => ⟨400, 0, sr.1.EndRequest, ar.1⟩
      | some count => ⟨202, count.toNat, sr.1.EndRequest, ar.1⟩

/-- `FastHTTPHandler.Collect`: the same pipeline over fasthttp —
lifecycle gate, limiter, `json.Unmarshal`, increment loop, 202. -/
def FastHTTPCollect (gs : EnhancedGracefulShutdown) (rl : RateLimiter) (now : Int)
    (body : Option Int) : CollectResult :=
  let sr := gs.StartRequest
  if !sr.2 then ⟨503, 0, sr.1, rl⟩
  else
    let ar := rl.Allow now
    if !ar.2 then ⟨429, 0, sr.1.EndRequest, ar.1⟩
    else
      match body with
      | none => ⟨400, 0, sr.1.EndRequest, ar.1⟩
      | some count => ⟨202, count.toNat, sr.1.EndRequest, ar.1⟩

/-! ### Generic list lemmas used by the window-total computations -/

lemma getD_set_self {α : Type} (l : List α) (i : Nat) (v d : α) (h : i < l.length) :
    (l.set i v).getD i d = v := by
  induction l generalizing i with
  | nil => simp at h
  | cons a l ih =>
    cases i with
    | zero => rfl
    | succ j => simpa using ih j (by simpa using h)

lemma set_getD_self {α : Type} (l : List α) (i : Nat) (d : α) :
    l.set i (l.getD i d) = l := by
  induction l generalizing i with
  | nil => rfl
  | cons a l ih =>
    cases i with
    | zero => simp [List.getD]
    | succ j => simpa using ih j

lemma tmod_toNat_lt (a : Int) (n : Nat) (h : 0 < n) : (a.tmod (n : Int)).toNat < n := by
  rcases le_or_lt 0 (a.tmod (n : Int)) with hpos | hneg
  · have hlt : a.tmod (n : Int) < (n : Int) := by
      have := Int.tmod_lt_of_pos a (b := (n : Int)) (by exact_mod_cast h)
      exact this
    omega
  · omega

/-! ### Window-total lemmas -/

lemma windowTotal_map_of_contribution_eq (ws : Int) (g : Slot → Slot) (l : List Slot)
    (h : ∀ s : Slot, (if ws ≤ (g s).timestamp then (g s).count else 0)
                      = (if ws ≤ s.timestamp then s.count else 0)) :
    windowTotal ws (l.map g) = windowTotal ws l := by
  induction l with
  | nil => rfl
  | cons s l ih => rw [List.map_cons, windowTotal, windowTotal, ih, h]

lemma windowTotal_replicate_zero (ws : Int) (n : Nat) :
    windowTotal ws (List.replicate n ⟨0, 0⟩) = 0 := by
  induction n with
  | zero => rfl
  | succ m ih =>
    rw [List.replicate_succ, windowTotal, ih]
    split <;> ring

lemma windowTotal_replicate_set (ws : Int) (n : Nat) (i : Nat) (s : Slot) (h : i < n) :
    windowTotal ws ((List.replicate n (⟨0, 0⟩ : Slot)).set i s)
      = if ws ≤ s.timestamp then s.count else 0 := by
  induction n generalizing i with
  | zero => omega
  | succ m ih =>
    cases i with
    | zero =>
      rw [List.replicate_succ, List.set_cons_zero, windowTotal,
        windowTotal_replicate_zero]
      ring
    | succ j =>
      rw [List.replicate_succ, List.set_cons_succ, windowTotal, ih j (by omega)]
      split <;> ring

lemma shardsWindowTotal_map_of_total_eq (ws : Int) (g : List Slot → List Slot)
    (shards : List (List Slot))
    (h : ∀ sh : List Slot, windowTotal ws (g sh) = windowTotal ws sh) :
    shardsWindowTotal ws (shards.map g) = shardsWindowTotal ws shards := by
  induction shards with
  | nil => rfl
  | cons sh rest ih => rw [List.map_cons, shardsWindowTotal, shardsWindowTotal, ih, h]

lemma shardsWindowTotal_replicate_zero (ws : Int) (m n : Nat) :
    shardsWindowTotal ws (List.replicate m (List.replicate n (⟨0, 0⟩ : Slot))) = 0 := by
  induction m with
  | zero => rfl
  | succ k ih =>
    rw [List.replicate_succ, shardsWindowTotal, ih, windowTotal_replicate_zero]
    ring

lemma shardsWindowTotal_replicate_set (ws : Int) (m n : Nat) (i : Nat) (sh : List Slot)
    (h : i < m) :
    shardsWindowTotal ws ((List.replicate m (List.replicate n (⟨0, 0⟩ : Slot))).set i sh)
      = windowTotal ws sh := by
  induction m generalizing i with
  | zero => omega
  | succ k ih =>
    cases i with
    | zero =>
      rw [List.replicate_succ, List.set_cons_zero, shardsWindowTotal,
        shardsWindowTotal_replicate_zero]
      ring
    | succ j =>
      rw [List.replicate_succ, List.set_cons_succ, shardsWindowTotal, ih j (by omega),
        windowTotal_replicate_zero]
      ring

lemma getD_replicate_lt {α : Type} (n i : Nat) (a d : α) (h : i < n) :
    (List.replicate n a).getD i d = a := by
  induction n generalizing i with
  | zero => omega
  | succ m ih =>
    cases i with
    | zero => rfl
    | succ j =>
      rw [List.replicate_succ, List.getD_cons_succ]
      exact ih j (by omega)

lemma getD_replicate {α : Type} (n i : Nat) (d : α) : (List.replicate n d).getD i d = d := by
  induction n generalizing i with
  | zero => rfl
  | succ m ih =>
    cases i with
    | zero => rfl
    | succ j => simpa using ih j

/-! ### Single-bucket increment runs -/

lemma lockfree_IncrAll_same_bucket (P b : Int) (l : List Int) :
    ∀ (lfw : LockFreeWindow) (u c : Int),
      lfw.precision = P →
      0 < lfw.slots.length →
      (∀ t ∈ l, t.tdiv P = b) →
      lfw.slots.getD ((b.tmod (lfw.slots.length : Int)).toNat) ⟨0, 0⟩ = ⟨u, c⟩ →
      u.tdiv P = b →
      lfw.IncrAll l
        = some { lfw with
            slots := lfw.slots.set ((b.tmod (lfw.slots.length : Int)).toNat)
                       ⟨u, c + (l.length : Int)⟩
            totalCount := lfw.totalCount + (l.length : Int) } := by
  induction l with
  | nil =>
    intro lfw u c hpre hlen _ hslot hu
    simp only [LockFreeWindow.IncrAll, List.length_nil, Nat.cast_zero, add_zero]
    rw [← hslot, set_getD_self]
  | cons t rest ih =>
    intro lfw u c hpre hlen hall hslot hu
    have ht : t.tdiv P = b := hall t (by simp)
    have hidx : lfw.idxAt t = (b.tmod (lfw.slots.length : Int)).toNat := by
      unfold LockFreeWindow.idxAt
      rw [hpre, ht]
    have hstep : lfw.Incr t
        = some { lfw with
            slots := lfw.slots.set ((b.tmod (lfw.slots.length : Int)).toNat) ⟨u, c + 1⟩
            totalCount := lfw.totalCount + 1 } := by
      unfold LockFreeWindow.Incr
      dsimp only
      rw [hidx, hslot, hpre, ht, hu]
      rw [if_pos rfl]
    simp only [LockFreeWindow.IncrAll, hstep]
    rw [ih _ u (c + 1) (by exact hpre) (by simpa using hlen)
      (fun x hx => hall x (by simp [hx]))
      (by
        dsimp only
        rw [List.length_set]
        exact getD_set_self _ _ _ _ (tmod_toNat_lt b lfw.slots.length hlen))
      hu]
    dsimp only
    rw [List.length_set, List.set_set]
    congr 2
    · congr 1
      simp only [List.length_cons]
      push_cast
      ring
    · simp only [List.length_cons]
      push_cast
      ring

lemma sharded_IncrAll_same_bucket (P b : Int) (l : List Int) :
    ∀ (sw : ShardedWindow) (u c : Int),
      sw.precision = P →
      0 < sw.shards.length →
      (b.tmod sw.slotNum).toNat < (sw.shards.getD ((b.tmod (sw.shards.length : Int)).toNat) []).length →
      (∀ t ∈ l, t.tdiv P = b) →
      (sw.shards.getD ((b.tmod (sw.shards.length : Int)).toNat) []).getD
          ((b.tmod sw.slotNum).toNat) ⟨0, 0⟩ = ⟨u, c⟩ →
      ¬ u < P * b →
      sw.IncrAll l
        = { sw with
            shards := sw.shards.set ((b.tmod (sw.shards.length : Int)).toNat)
                        ((sw.shards.getD ((b.tmod (sw.shards.length : Int)).toNat) []).set
                          ((b.tmod sw.slotNum).toNat) ⟨u, c + (l.length : Int)⟩)
            totalCount := sw.totalCount + (l.length : Int) } := by
  induction l with
  | nil =>
    intro sw u c hpre hlen hsl _ hslot hu
    simp only [ShardedWindow.IncrAll, List.length_nil, Nat.cast_zero, add_zero]
    rw [← hslot, set_getD_self, set_getD_self]
  | cons t rest ih =>
    intro sw u c hpre hlen hsl hall hslot hu
    obtain ⟨Pv, Wv, mv, shardsv, stopv, totv⟩ := sw
    dsimp only at hpre hlen hsl hslot ⊢
    subst hpre
    have ht : t.tdiv Pv = b := hall t (by simp)
    have hslotTime : t - t.tmod Pv = Pv * b := by
      have hh := Int.tdiv_add_tmod t Pv
      rw [ht] at hh
      omega
    have hsID : (b.tmod (shardsv.length : Int)).toNat < shardsv.length :=
      tmod_toNat_lt b shardsv.length hlen
    have hstep : ShardedWindow.Incr ⟨Pv, Wv, mv, shardsv, stopv, totv⟩ t
        = ⟨Pv, Wv, mv,
            shardsv.set ((b.tmod (shardsv.length : Int)).toNat)
              ((shardsv.getD ((b.tmod (shardsv.length : Int)).toNat) []).set
                ((b.tmod mv).toNat) ⟨u, c + 1⟩),
            stopv, totv + 1⟩ := by
      unfold ShardedWindow.Incr ShardedWindow.shardIdxAt ShardedWindow.slotIdxAt
      dsimp only
      rw [ht, hslot]
      dsimp only
      rw [hslotTime, if_neg hu]
    have hlen2 : 0 < (shardsv.set ((b.tmod (shardsv.length : Int)).toNat)
        ((shardsv.getD ((b.tmod (shardsv.length : Int)).toNat) []).set
          ((b.tmod mv).toNat) ⟨u, c + 1⟩)).length := by
      rw [List.length_set]
      exact hlen
    have hget1 : (shardsv.set ((b.tmod (shardsv.length : Int)).toNat)
          ((shardsv.getD ((b.tmod (shardsv.length : Int)).toNat) []).set
            ((b.tmod mv).toNat) ⟨u, c + 1⟩)).getD ((b.tmod (shardsv.length : Int)).toNat) []
        = (shardsv.getD ((b.tmod (shardsv.length : Int)).toNat) []).set
            ((b.tmod mv).toNat) ⟨u, c + 1⟩ :=
      getD_set_self _ _ _ _ hsID
    have happ := ih ⟨Pv, Wv, mv,
        shardsv.set ((b.tmod (shardsv.length : Int)).toNat)
          ((shardsv.getD ((b.tmod (shardsv.length : Int)).toNat) []).set
            ((b.tmod mv).toNat) ⟨u, c + 1⟩),
        stopv, totv + 1⟩ u (c + 1) rfl hlen2
      (by
        dsimp only
        simp only [List.length_set, hget1]
        exact hsl)
      (fun x hx => hall x (by simp [hx]))
      (by
        dsimp only
        simp only [List.length_set, hget1]
        exact getD_set_self _ _ _ _ hsl)
      hu
    dsimp only at happ
    simp only [List.length_set, hget1, List.set_set] at happ
    simp only [ShardedWindow.IncrAll, hstep, happ]
    have hc1 : c + 1 + ((rest.length : Nat) : Int) = c + (((t :: rest).length : Nat) : Int) := by
      simp only [List.length_cons]
      push_cast
      ring
    have hc2 : totv + 1 + ((rest.length : Nat) : Int)
        = totv + (((t :: rest).length : Nat) : Int) := by
      simp only [List.length_cons]
      push_cast
      ring
    rw [hc1, hc2]

/-! ### Rate-limiter invariant lemmas -/

lemma Allow_preserves (rl : RateLimiter) (now : Int)
    (h0 : 0 ≤ rl.tokens) (h1 : rl.tokens ≤ rl.burstSize) :
    (0 ≤ (rl.Allow now).1.tokens ∧ (rl.Allow now).1.tokens ≤ rl.burstSize)
      ∧ (rl.Allow now).1.burstSize = rl.burstSize
      ∧ (rl.Allow now).1.rejectedCount
          + (if (rl.Allow now).2 && rl.enabled then (1 : Int) else 0)
          - (rl.Allow now).1.totalCount
        = rl.rejectedCount - rl.totalCount := by
  unfold RateLimiter.Allow
  by_cases he : rl.enabled
  · simp only [he, Bool.not_true]
    rw [if_neg Bool.false_ne_true]
    split_ifs <;> refine ⟨⟨?_, ?_⟩, ?_, ?_⟩ <;> simp_all <;> omega
  · simp only [he, Bool.not_false]
    rw [if_pos trivial]
    refine ⟨⟨h0, h1⟩, rfl, ?_⟩
    simp [he]

lemma Allow_accounting (rl : RateLimiter) (now : Int) :
    (rl.Allow now).1.rejectedCount
        + (if (rl.Allow now).2 && rl.enabled then (1 : Int) else 0)
        - (rl.Allow now).1.totalCount
      = rl.rejectedCount - rl.totalCount := by
  unfold RateLimiter.Allow
  by_cases he : rl.enabled
  · simp only [he, Bool.not_true]
    rw [if_neg Bool.false_ne_true]
    split_ifs <;> simp_all <;> omega
  · simp only [he, Bool.not_false]
    rw [if_pos trivial]
    simp [he]

lemma RunOps_accounting (ops : List LimiterOp) :
    ∀ rl : RateLimiter,
      (RunOps rl ops).1.rejectedCount + (RunOps rl ops).2 - (RunOps rl ops).1.totalCount
        = rl.rejectedCount - rl.totalCount := by
  induction ops with
  | nil =>
    intro rl
    simp [RunOps]
  | cons op rest ih =>
    intro rl
    cases op with
    | allow now =>
      have hacc := Allow_accounting rl now
      have ihs := ih (rl.Allow now).1
      simp only [RunOps]
      omega
    | setRate r =>
      simp only [RunOps]
      exact ih (rl.SetRate r)
    | setEnabled e =>
      simp only [RunOps]
      exact ih (rl.SetEnabled e)
    | setTokensForTest t =>
      simp only [RunOps]
      exact ih (rl.SetTokensForTest t)

lemma RunOps_invariant (ops : List LimiterOp) :
    ∀ rl : RateLimiter,
      0 ≤ rl.tokens → rl.tokens ≤ rl.burstSize →
      ops.all (tokensOpOK rl.burstSize) = true →
      ((0 ≤ (RunOps rl ops).1.tokens ∧ (RunOps rl ops).1.tokens ≤ rl.burstSize)
        ∧ (RunOps rl ops).1.burstSize = rl.burstSize
        ∧ (RunOps rl ops).1.rejectedCount + (RunOps rl ops).2 - (RunOps rl ops).1.totalCount
            = rl.rejectedCount - rl.totalCount) := by
  induction ops with
  | nil =>
    intro rl h0 h1 _
    exact ⟨⟨h0, h1⟩, rfl, by simp [RunOps]⟩
  | cons op rest ih =>
    intro rl h0 h1 hall
    rw [List.all_cons, Bool.and_eq_true] at hall
    cases op with
    | allow now =>
      have hsp := Allow_preserves rl now h0 h1
      have ihs := ih (rl.Allow now).1 hsp.1.1
        (by rw [hsp.2.1]; exact hsp.1.2)
        (by rw [hsp.2.1]; exact hall.2)
      simp only [RunOps]
      refine ⟨⟨ihs.1.1, ?_⟩, ?_, ?_⟩
      · rw [← hsp.2.1]
        exact ihs.1.2
      · rw [ihs.2.1, hsp.2.1]
      · have e1 := ihs.2.2
        have e2 := hsp.2.2
        omega
    | setRate r =>
      simp only [RunOps]
      exact ih (rl.SetRate r) h0 h1 hall.2
    | setEnabled e =>
      simp only [RunOps]
      exact ih (rl.SetEnabled e) h0 h1 hall.2
    | setTokensForTest t =>
      have hbound : 0 ≤ t ∧ t ≤ rl.burstSize := by
        have hh := hall.1
        unfold tokensOpOK at hh
        exact of_decide_eq_true hh
      simp only [RunOps]
      exact ih (rl.SetTokensForTest t) hbound.1 hbound.2 hall.2

/-! ### Claim C1 -/

/-- Claim C1 (amended).  The read-side filter of both `CurrentQPS`
implementations keys on the stored slot timestamp: zeroing every
out-of-window slot (exactly what the cleaner does) never changes the
reported value, so a slot whose stored timestamp is older than
`now - W` contributes nothing even if the cleaner never runs — parts
one and two.  The original claim fails for the sharded variant, though:
part three shows that `ShardedWindow.Incr` landing on a slot last
written more than `W` ago refreshes the slot timestamp to the current
bucket start without zeroing the count, so the previously accumulated
count re-enters the window and is included in the reported total. -/
theorem stale_slots_filtered_and_sharded_resurrection :
    (∀ (lfw : LockFreeWindow) (now : Int),
        (lfw.cleanupExpired now).CurrentQPS now = lfw.CurrentQPS now)
    ∧ (∀ (sw : ShardedWindow) (now : Int),
        (sw.cleanupExpired now).CurrentQPS now = sw.CurrentQPS now)
    ∧ (∀ (sw : ShardedWindow) (now : Int),
        0 < sw.precision → sw.precision ≤ sw.windowSize → 0 ≤ now →
        sw.shardIdxAt now < sw.shards.length →
        sw.slotIdxAt now < (sw.shards.getD (sw.shardIdxAt now) []).length →
        ((sw.shards.getD (sw.shardIdxAt now) []).getD (sw.slotIdxAt now) ⟨0, 0⟩).timestamp
          < now - sw.windowSize →
        (((sw.Incr now).shards.getD (sw.shardIdxAt now) []).getD (sw.slotIdxAt now) ⟨0, 0⟩
            = ⟨now - now.tmod sw.precision,
               ((sw.shards.getD (sw.shardIdxAt now) []).getD (sw.slotIdxAt now) ⟨0, 0⟩).count + 1⟩)
          ∧ now - sw.windowSize ≤ now - now.tmod sw.precision) := by
  refine ⟨?_, ?_, ?_⟩
  · intro lfw now
    unfold LockFreeWindow.cleanupExpired LockFreeWindow.CurrentQPS
    dsimp only
    rw [windowTotal_map_of_contribution_eq]
    intro s
    by_cases hc : 0 < s.timestamp ∧ s.timestamp < now - lfw.windowSize
    · rw [if_pos hc]
      have hni : ¬ (now - lfw.windowSize ≤ s.timestamp) := by omega
      simp only [if_neg hni]
      split <;> rfl
    · rw [if_neg hc]
  · intro sw now
    unfold ShardedWindow.cleanupExpired ShardedWindow.CurrentQPS
    dsimp only
    rw [shardsWindowTotal_map_of_total_eq]
    intro sh
    rw [windowTotal_map_of_contribution_eq]
    intro s
    by_cases hc : now - sw.windowSize ≤ s.timestamp
    · rw [if_pos hc]
    · rw [if_neg hc]
      simp only [if_neg hc]
      split <;> rfl
  · intro sw now hP hPW hnow hlen1 hlen2 hstale
    have hm1 : 0 ≤ now.tmod sw.precision := Int.tmod_nonneg _ hnow
    have hm2 : now.tmod sw.precision < sw.precision := Int.tmod_lt_of_pos _ hP
    have hwin : now - sw.windowSize ≤ now - now.tmod sw.precision := by omega
    refine ⟨?_, hwin⟩
    unfold ShardedWindow.Incr
    dsimp only
    have hts : ((sw.shards.getD (sw.shardIdxAt now) []).getD (sw.slotIdxAt now) ⟨0, 0⟩).timestamp
        < now - now.tmod sw.precision := by omega
    rw [if_pos hts]
    rw [getD_set_self _ _ _ _ hlen1, getD_set_self _ _ _ _ hlen2]

/-- Claim C1 witness: the amended facts instantiated on a concrete
sharded counter (window 1 s, precision 100 ms, 4 shards, 10 slots)
after one `Incr` at t = 0.1 s, observed by an `Incr` at t = 2.1 s that
lands on the same (shard, slot) pair. -/
theorem stale_slots_filtered_and_sharded_resurrection_witness :
    let st1 := (NewSharded 100000000 1000000000 4 10).Incr 100000000
    (((st1.Incr 2100000000).shards.getD (st1.shardIdxAt 2100000000) []).getD
          (st1.slotIdxAt 2100000000) ⟨0, 0⟩
        = ⟨2100000000 - (2100000000 : Int).tmod st1.precision,
           ((st1.shards.getD (st1.shardIdxAt 2100000000) []).getD
               (st1.slotIdxAt 2100000000) ⟨0, 0⟩).count + 1⟩)
      ∧ (2100000000 : Int) - st1.windowSize ≤ 2100000000 - (2100000000 : Int).tmod st1.precision := by
  exact stale_slots_filtered_and_sharded_resurrection.2.2
    ((NewSharded 100000000 1000000000 4 10).Incr 100000000) 2100000000
    (by decide) (by decide) (by decide) (by decide) (by decide) (by decide)

/-- Claim C1 counterexample: in the same scenario as the witness, the
pre-existing slot count 1 is stale (its stored timestamp 0.1 s is older
than 2.1 s − 1 s), yet after the second `Incr` the reported QPS at
t = 2.1 s is 2 — the stale count is included, where the claim demands
it contribute nothing (which would report 1). -/
theorem sharded_stale_count_included_counterexample :
    let st1 := (NewSharded 100000000 1000000000 4 10).Incr 100000000
    ((st1.shards.getD 1 []).getD 1 ⟨0, 0⟩ = ⟨100000000, 1⟩)
      ∧ ((100000000 : Int) < 2100000000 - 1000000000)
      ∧ (st1.Incr 2100000000).CurrentQPS 2100000000 = 2
      ∧ ((2 : Int) ≠ 1) := by
  decide

/-! ### Claim C3 -/

/-- Claim C3 counterexample: `Incr` does not always terminate.  On a
one-slot ring with precision 100 ns (a configuration `validateConfig`
accepts), an `Incr` at t = 199 ns reaches the reachable state whose
slot holds timestamp 199; a subsequent `Incr` at t = 200 ns finds a
stored timestamp that is in a different bucket, non-zero, and not older
than `t − P`, so no branch of the loop body fires and the CAS retry
loop spins forever (`none`; still `none` with 50 units of fuel). -/
theorem lockfree_incr_divergence_counterexample :
    (NewLockFree 100 100 1).Incr 199
        = some { precision := 100, windowSize := 100, slots := [⟨199, 1⟩],
                 stopped := false, totalCount := 1 }
      ∧ ({ precision := 100, windowSize := 100, slots := [⟨199, 1⟩],
           stopped := false, totalCount := 1 } : LockFreeWindow).Incr 200 = none
      ∧ LockFreeWindow.IncrLoop 50
          { precision := 100, windowSize := 100, slots := [⟨199, 1⟩],
            stopped := false, totalCount := 1 } 200 = none := by
  decide

/-- Claim C3 (amended).  The CAS retry loop of `Incr` terminates if and
only if the stored timestamp of the targeted slot is in the same bucket
as the call time, is zero, or is older than `now − precision`; the
claimed trichotomy is not exhaustive, and in the remaining case (a
non-zero stored timestamp from a different bucket that is at most
`precision` old, reachable across a bucket boundary when `slot_num` is
1) the loop retries forever on unchanged state, as the fuelled loop
shows at every fuel value. -/
theorem lockfree_incr_termination_characterization :
    (∀ (lfw : LockFreeWindow) (now : Int),
        ((lfw.Incr now).isSome = true ↔
          ((lfw.slots.getD (lfw.idxAt now) ⟨0, 0⟩).timestamp.tdiv lfw.precision
              = now.tdiv lfw.precision
            ∨ (lfw.slots.getD (lfw.idxAt now) ⟨0, 0⟩).timestamp = 0
            ∨ (lfw.slots.getD (lfw.idxAt now) ⟨0, 0⟩).timestamp < now - lfw.precision)))
    ∧ (∀ fuel : Nat,
        LockFreeWindow.IncrLoop fuel
          { precision := 100, windowSize := 100, slots := [⟨199, 1⟩],
            stopped := false, totalCount := 1 } 200 = none) := by
  constructor
  · intro lfw now
    unfold LockFreeWindow.Incr
    dsimp only
    split_ifs with h1 h2 <;> simp_all
  · intro fuel
    induction fuel with
    | zero => rfl
    | succ n ih =>
      have h : ({ precision := 100, windowSize := 100, slots := [⟨199, 1⟩],
                  stopped := false, totalCount := 1 } : LockFreeWindow).Incr 200 = none := by
        decide
      simp [LockFreeWindow.IncrLoop, h, ih]


/-- Claim C3 witness: the termination characterization instantiated at
the boundary state of the counterexample — the stored timestamp 199 is
in a different bucket than the call at 200, is non-zero and is not
older than 200 − 100, so `Incr` does not terminate there. -/
theorem lockfree_incr_termination_characterization_witness :
    ((({ precision := 100, windowSize := 100, slots := [⟨199, 1⟩],
         stopped := false, totalCount := 1 } : LockFreeWindow).Incr 200).isSome = true ↔
      ((({ precision := 100, windowSize := 100, slots := [⟨199, 1⟩],
           stopped := false, totalCount := 1 } : LockFreeWindow).slots.getD
            (({ precision := 100, windowSize := 100, slots := [⟨199, 1⟩],
                stopped := false, totalCount := 1 } : LockFreeWindow).idxAt 200)
            ⟨0, 0⟩).timestamp.tdiv 100 = (200 : Int).tdiv 100
        ∨ (({ precision := 100, windowSize := 100, slots := [⟨199, 1⟩],
              stopped := false, totalCount := 1 } : LockFreeWindow).slots.getD
            (({ precision := 100, windowSize := 100, slots := [⟨199, 1⟩],
                stopped := false, totalCount := 1 } : LockFreeWindow).idxAt 200)
            ⟨0, 0⟩).timestamp = 0
        ∨ (({ precision := 100, windowSize := 100, slots := [⟨199, 1⟩],
              stopped := false, totalCount := 1 } : LockFreeWindow).slots.getD
            (({ precision := 100, windowSize := 100, slots := [⟨199, 1⟩],
                stopped := false, totalCount := 1 } : LockFreeWindow).idxAt 200)
            ⟨0, 0⟩).timestamp < 200 - 100)) :=
  lockfree_incr_termination_characterization.1
    { precision := 100, windowSize := 100, slots := [⟨199, 1⟩],
      stopped := false, totalCount := 1 } 200

/-! ### Claim C8 -/

/-- Claim C8: `Stop` is not idempotent for either counter variant.
Both `LockFreeWindow.Stop` and `ShardedWindow.Stop` execute a bare
`close(stopChan)`, so the second call closes an already-closed channel
and panics, where the spec promises an idempotent no-op.  The repo's
own `BaseComponent.Stop` (third conjunct) implements the guarded,
genuinely idempotent close that the two counters fail to use. -/
theorem double_stop_panics :
    ((NewLockFree 100000000 1000000000 10).Stop.bind LockFreeWindow.Stop
        = .error .closeOfClosedChannel)
      ∧ ((NewSharded 100000000 1000000000 4 10).Stop.bind ShardedWindow.Stop
        = .error .closeOfClosedChannel)
      ∧ (∀ bc : BaseComponent, bc.Stop.bind BaseComponent.Stop = .ok { stopClosed := true }) := by
  refine ⟨rfl, rfl, ?_⟩
  intro bc
  cases hb : bc.stopClosed
  · simp [BaseComponent.Stop, Except.bind, hb]
  · simp [BaseComponent.Stop, Except.bind, hb]
    cases bc
    simp_all

/-! ### Claim C2 -/

/-- Claim C2: starting from a freshly constructed counter of either
variant, `k` single-threaded `Incr` calls that all fall in the same
precision bucket `b` (with `b ≥ 1`, as for any real Unix-epoch
nanosecond clock reading), followed by a `CurrentQPS` read within the
same window (at most `W` after the bucket start), report exactly
`k · (1 s / W)` in the int64 arithmetic of the source — in particular
exactly `k` when `W` is one second. -/
theorem same_bucket_incrs_report_k
    (P W : Int) (n sN : Nat) (t1 : Int) (rest : List Int) (tq b : Int)
    (hP : 0 < P) (hW : 0 < W) (hn : 0 < n) (hsN : 0 < sN)
    (ht1 : t1.tdiv P = b) (hb1 : 1 ≤ b) (ht1n : 0 ≤ t1)
    (hrest : ∀ t ∈ rest, t.tdiv P = b)
    (hwin : tq - W ≤ b * P) :
    ((NewLockFree P W n).IncrAll (t1 :: rest)).map (fun st => st.CurrentQPS tq)
        = some ((((t1 :: rest).length : Int) * 1000000000).tdiv W)
      ∧ ((NewSharded P W sN n).IncrAll (t1 :: rest)).CurrentQPS tq
        = (((t1 :: rest).length : Int) * 1000000000).tdiv W
      ∧ (W = 1000000000 →
          ((NewLockFree P W n).IncrAll (t1 :: rest)).map (fun st => st.CurrentQPS tq)
              = some ((t1 :: rest).length : Int)
            ∧ ((NewSharded P W sN n).IncrAll (t1 :: rest)).CurrentQPS tq
              = ((t1 :: rest).length : Int)) := by
  have hPb : P * b ≤ t1 := by
    have hh := Int.tdiv_add_tmod t1 P
    have hm := Int.tmod_nonneg P ht1n
    rw [ht1] at hh
    omega
  have hPb2 : b * P ≤ t1 := by rwa [mul_comm] at hPb
  have hwS : tq - W ≤ P * b := by rwa [mul_comm] at hwin
  have hwlf : tq - W ≤ t1 := le_trans hwin hPb2
  have hidxlt : (b.tmod (n : Int)).toNat < n := tmod_toNat_lt b n hn
  have hsIDlt : (b.tmod (sN : Int)).toNat < sN := tmod_toNat_lt b sN hsN
  have harith : ((1 : Int) + (rest.length : Int)) * 1000000000
      = (((t1 :: rest).length : Int)) * 1000000000 := by
    simp only [List.length_cons]
    push_cast
    ring
  -- lock-free: the first call claims the fresh slot via the CAS branch
  have hfresh : (NewLockFree P W n).Incr t1
      = some ⟨P, W, (List.replicate n (⟨0, 0⟩ : Slot)).set ((b.tmod (n : Int)).toNat) ⟨t1, 1⟩,
              false, 1⟩ := by
    unfold NewLockFree LockFreeWindow.Incr LockFreeWindow.idxAt
    dsimp only
    rw [List.length_replicate, getD_replicate, ht1]
    dsimp only
    rw [Int.zero_tdiv, if_neg (by omega), if_pos (Or.inl rfl)]
    norm_num
  have happLF := lockfree_IncrAll_same_bucket P b rest
    ⟨P, W, (List.replicate n (⟨0, 0⟩ : Slot)).set ((b.tmod (n : Int)).toNat) ⟨t1, 1⟩, false, 1⟩
    t1 1 rfl
    (by
      dsimp only
      rw [List.length_set, List.length_replicate]
      exact hn)
    hrest
    (by
      dsimp only
      rw [List.length_set, List.length_replicate]
      exact getD_set_self _ _ _ _ (by rw [List.length_replicate]; exact hidxlt))
    ht1
  dsimp only at happLF
  simp only [List.length_set, List.length_replicate, List.set_set] at happLF
  have hLFrun : (NewLockFree P W n).IncrAll (t1 :: rest)
      = some ⟨P, W,
          (List.replicate n (⟨0, 0⟩ : Slot)).set ((b.tmod (n : Int)).toNat)
            ⟨t1, 1 + (rest.length : Int)⟩,
          false, 1 + (rest.length : Int)⟩ := by
    simp only [LockFreeWindow.IncrAll, hfresh, happLF]
  have hLFqps : (⟨P, W,
        (List.replicate n (⟨0, 0⟩ : Slot)).set ((b.tmod (n : Int)).toNat)
          ⟨t1, 1 + (rest.length : Int)⟩,
        false, 1 + (rest.length : Int)⟩ : LockFreeWindow).CurrentQPS tq
      = ((((t1 :: rest).length : Int)) * 1000000000).tdiv W := by
    unfold LockFreeWindow.CurrentQPS
    dsimp only
    rw [windowTotal_replicate_set _ _ _ _ hidxlt]
    dsimp only
    rw [if_pos hwlf, harith]
  have hLF : ((NewLockFree P W n).IncrAll (t1 :: rest)).map (fun st => st.CurrentQPS tq)
      = some ((((t1 :: rest).length : Int) * 1000000000).tdiv W) := by
    rw [hLFrun, Option.map_some', hLFqps]
  -- sharded: the first call stamps the bucket start into the fresh slot
  have hslotTime1 : t1 - t1.tmod P = P * b := by
    have hh := Int.tdiv_add_tmod t1 P
    rw [ht1] at hh
    omega
  have hfreshS : (NewSharded P W sN n).Incr t1
      = ⟨P, W, (n : Int),
          (List.replicate sN (List.replicate n (⟨0, 0⟩ : Slot))).set ((b.tmod (sN : Int)).toNat)
            ((List.replicate n (⟨0, 0⟩ : Slot)).set ((b.tmod (n : Int)).toNat) ⟨P * b, 1⟩),
          false, 1⟩ := by
    unfold NewSharded ShardedWindow.Incr ShardedWindow.shardIdxAt ShardedWindow.slotIdxAt
    dsimp only
    rw [List.length_replicate, ht1, getD_replicate_lt _ _ _ _ hsIDlt, getD_replicate]
    dsimp only
    rw [hslotTime1, if_pos (by positivity)]
    norm_num
  have happS := sharded_IncrAll_same_bucket P b rest
    ⟨P, W, (n : Int),
        (List.replicate sN (List.replicate n (⟨0, 0⟩ : Slot))).set ((b.tmod (sN : Int)).toNat)
          ((List.replicate n (⟨0, 0⟩ : Slot)).set ((b.tmod (n : Int)).toNat) ⟨P * b, 1⟩),
        false, 1⟩
    (P * b) 1 rfl
    (by
      dsimp only
      rw [List.length_set, List.length_replicate]
      exact hsN)
    (by
      dsimp only
      simp only [List.length_set, List.length_replicate]
      rw [getD_set_self _ _ _ _ (by rw [List.length_replicate]; exact hsIDlt),
        List.length_set, List.length_replicate]
      exact hidxlt)
    hrest
    (by
      dsimp only
      simp only [List.length_set, List.length_replicate]
      rw [getD_set_self _ _ _ _ (by rw [List.length_replicate]; exact hsIDlt)]
      exact getD_set_self _ _ _ _ (by rw [List.length_replicate]; exact hidxlt))
    (lt_irrefl (P * b))
  dsimp only at happS
  simp only [List.length_set, List.length_replicate] at happS
  rw [getD_set_self _ _ _ _ (by rw [List.length_replicate]; exact hsIDlt),
    List.set_set, List.set_set] at happS
  have hSHrun : (NewSharded P W sN n).IncrAll (t1 :: rest)
      = ⟨P, W, (n : Int),
          (List.replicate sN (List.replicate n (⟨0, 0⟩ : Slot))).set ((b.tmod (sN : Int)).toNat)
            ((List.replicate n (⟨0, 0⟩ : Slot)).set ((b.tmod (n : Int)).toNat)
              ⟨P * b, 1 + (rest.length : Int)⟩),
          false, 1 + (rest.length : Int)⟩ := by
    simp only [ShardedWindow.IncrAll, hfreshS, happS]
  have hSH : ((NewSharded P W sN n).IncrAll (t1 :: rest)).CurrentQPS tq
      = (((t1 :: rest).length : Int) * 1000000000).tdiv W := by
    rw [hSHrun]
    unfold ShardedWindow.CurrentQPS
    dsimp only
    rw [shardsWindowTotal_replicate_set _ _ _ _ _ hsIDlt,
      windowTotal_replicate_set _ _ _ _ hidxlt]
    dsimp only
    rw [if_pos hwS, harith]
  refine ⟨hLF, hSH, fun hW9 => ?_⟩
  subst hW9
  constructor
  · rw [hLF]
    rw [Int.mul_tdiv_cancel _ (by norm_num)]
  · rw [hSH]
    rw [Int.mul_tdiv_cancel _ (by norm_num)]

/-! ### Claim C4 -/

/-- Claim C4 counterexample: a configuration whose ring does not cover
the window — slot_num · precision = 10 · 1 ms = 10 ms, far below the
1 s window — passes `validateConfig` with no error, because validation
only checks each field individually. -/
theorem validate_config_accepts_uncovered_ring :
    validateConfig
        { server := ⟨8080, 5000000000, 10000000000⟩
          counter := ⟨"lockfree", 1000000000, 10, 1000000⟩
          logger := ⟨"info", "json", "", 100, 3, 7⟩
          limiter := ⟨true, 1000, 2000, false⟩
          metrics := ⟨true, 5000000000, "/metrics"⟩
          shutdown := ⟨5000000000, 10000000000⟩ } = none
      ∧ ((10 : Int) * 1000000 < 1000000000) := by
  decide

/-- Claim C4 (amended): `validateConfig` accepts a configuration
exactly when every individual field constraint holds — positive window,
slot count, precision, shutdown timeouts, a port in range, and positive
rate, burst and interval where the respective subsystem is enabled.  No
check relates slot_num · precision to window_size (nor precision to
window_size), so ring-coverage violations pass validation. -/
theorem validate_config_characterization (cfg : AppConfig) :
    validateConfig cfg = none ↔
      (0 < cfg.counter.windowSize ∧ 0 < cfg.counter.slotNum ∧ 0 < cfg.counter.precision
        ∧ 0 < cfg.server.port ∧ cfg.server.port ≤ 65535
        ∧ (cfg.limiter.enabled → 0 < cfg.limiter.rate)
        ∧ (cfg.limiter.enabled → 0 < cfg.limiter.burst)
        ∧ (cfg.metrics.enabled → 0 < cfg.metrics.interval)
        ∧ 0 < cfg.shutdown.timeout ∧ 0 < cfg.shutdown.maxWait) := by
  constructor
  · intro hnone
    unfold validateConfig at hnone
    split_ifs at hnone with h1 h2 h3 h4 h5 h6 h7 h8 h9 <;> try simp at hnone
    refine ⟨by omega, by omega, by omega, by omega, by omega, ?_, ?_, ?_, by omega, by omega⟩
    · intro he
      by_contra hr0
      exact h5 ⟨he, by omega⟩
    · intro he
      by_contra hb0
      exact h6 ⟨he, by omega⟩
    · intro he
      by_contra hi0
      exact h7 ⟨he, by omega⟩
  · rintro ⟨a1, a2, a3, a4, a5, a6, a7, a8, a9, a10⟩
    unfold validateConfig
    rw [if_neg (by omega), if_neg (by omega), if_neg (by omega), if_neg (by omega),
      if_neg (fun hc => absurd (a6 hc.1) (not_lt.mpr hc.2)),
      if_neg (fun hc => absurd (a7 hc.1) (not_lt.mpr hc.2)),
      if_neg (fun hc => absurd (a8 hc.1) (not_lt.mpr hc.2)),
      if_neg (by omega), if_neg (by omega)]


/-- Claim C4 witness: the validation characterization instantiated at
the uncovered-ring configuration of the counterexample. -/
theorem validate_config_characterization_witness :
    validateConfig
        { server := ⟨8080, 5000000000, 10000000000⟩
          counter := ⟨"lockfree", 1000000000, 10, 1000000⟩
          logger := ⟨"info", "json", "", 100, 3, 7⟩
          limiter := ⟨true, 1000, 2000, false⟩
          metrics := ⟨true, 5000000000, "/metrics"⟩
          shutdown := ⟨5000000000, 10000000000⟩ } = none ↔
      (0 < (1000000000 : Int) ∧ 0 < (10 : Int) ∧ 0 < (1000000 : Int)
        ∧ 0 < (8080 : Int) ∧ (8080 : Int) ≤ 65535
        ∧ (true = true → 0 < (1000 : Int))
        ∧ (true = true → 0 < (2000 : Int))
        ∧ (true = true → 0 < (5000000000 : Int))
        ∧ 0 < (5000000000 : Int) ∧ 0 < (10000000000 : Int)) :=
  validate_config_characterization
    { server := ⟨8080, 5000000000, 10000000000⟩
      counter := ⟨"lockfree", 1000000000, 10, 1000000⟩
      logger := ⟨"info", "json", "", 100, 3, 7⟩
      limiter := ⟨true, 1000, 2000, false⟩
      metrics := ⟨true, 5000000000, "/metrics"⟩
      shutdown := ⟨5000000000, 10000000000⟩ }

/-! ### Claim C5 -/

/-- Claim C5 counterexample: a `Shutdown` that ends in forced
termination returns `deadlineExceeded`, but the very next `Shutdown`
call on the same instance returns `nil` — not the first call's result,
because `shutdownErr` is a per-call local that the skipped
`shutdownOnce.Do` body never assigns. -/
theorem shutdown_second_call_counterexample :
    ((NewEnhancedGracefulShutdown 50000000 100000000).Shutdown .forced).2
        = some .deadlineExceeded
      ∧ (((NewEnhancedGracefulShutdown 50000000 100000000).Shutdown .forced).1.Shutdown
          .forced).2 = none
      ∧ some GoError.deadlineExceeded ≠ (none : Option GoError) := by
  decide

/-- Claim C5 (amended): after any first `Shutdown` call, a second call
performs no state transition and always returns `nil` — which equals
the first call's result exactly when the first call did not end in
forced termination.  The idempotence of the state holds; the
"reports the first call's terminal status" part does not extend to the
returned error. -/
theorem shutdown_second_call_noop (gs : EnhancedGracefulShutdown)
    (oc1 oc2 : DrainOutcome) :
    ((gs.Shutdown oc1).1.Shutdown oc2).1 = (gs.Shutdown oc1).1
      ∧ ((gs.Shutdown oc1).1.Shutdown oc2).2 = none
      ∧ ((gs.Shutdown oc1).2 = none →
          ((gs.Shutdown oc1).1.Shutdown oc2).2 = (gs.Shutdown oc1).2) := by
  unfold EnhancedGracefulShutdown.Shutdown
  by_cases h : gs.onceDone
  · simp [h]
  · cases oc1 <;> simp [h]


/-- Claim C5 witness: the no-op property instantiated at a concrete
instance whose first call ends in forced termination. -/
theorem shutdown_second_call_noop_witness :
    (((NewEnhancedGracefulShutdown 50000000 100000000).Shutdown .forced).1.Shutdown
          .graceful).1
        = ((NewEnhancedGracefulShutdown 50000000 100000000).Shutdown .forced).1
      ∧ (((NewEnhancedGracefulShutdown 50000000 100000000).Shutdown .forced).1.Shutdown
          .graceful).2 = none
      ∧ (((NewEnhancedGracefulShutdown 50000000 100000000).Shutdown .forced).2 = none →
          (((NewEnhancedGracefulShutdown 50000000 100000000).Shutdown .forced).1.Shutdown
            .graceful).2
            = ((NewEnhancedGracefulShutdown 50000000 100000000).Shutdown .forced).2) :=
  shutdown_second_call_noop (NewEnhancedGracefulShutdown 50000000 100000000) .forced .graceful

/-! ### Claim C6 -/

/-- Claim C6 counterexample: with previous QPS 100, fresh QPS 10
(change rate −0.9), current shards 10, min 2, max 80 and memory under
threshold, the enhanced controller's step sets the shard count to 5 —
it removes 50% — whereas the claimed formula
`max(min, current − ⌊current · 0.3⌋)` gives 7. -/
theorem enhanced_scale_down_counterexample :
    EnhancedAdjustShards 0 1000000000 10 100 10 2 80 = 5
      ∧ (5 : Int) ≠ max 2 (10 - 3) := by
  constructor
  · have htd : (10 : Int).tdiv 2 = 5 := by decide
    norm_num [EnhancedAdjustShards, htd]
  · decide

/-- Claim C6 (amended): on an adjustment step of the enhanced adaptive
sharding controller in which memory usage does not exceed the threshold,
the QPS change rate is below −0.30 and the current shard count is above
the minimum, the controller sets the shard count to
`max(min, current − ⌊current / 2⌋)` — scale-down removes 50% of the
current shard count (the coefficient in `adjustShards` is 0.5, not the
0.3 the spec and the legacy `AdaptiveShardingManager` use), clamped at
the minimum. -/
theorem enhanced_scale_down_removes_half
    (memoryUsage memoryThreshold currentQPS lastQPS currentShards minShards maxShards : Int)
    (hmem : memoryUsage ≤ memoryThreshold)
    (hlast : 0 < lastQPS)
    (hdrop : ((currentQPS : ℚ) - (lastQPS : ℚ)) / (lastQPS : ℚ) < -(3 / 10))
    (hc : minShards < currentShards) :
    EnhancedAdjustShards memoryUsage memoryThreshold currentQPS lastQPS
        currentShards minShards maxShards
      = max minShards (currentShards - currentShards.tdiv 2) := by
  unfold EnhancedAdjustShards
  dsimp only
  rw [if_pos hlast]
  rw [if_neg (by omega : ¬ (memoryThreshold < memoryUsage ∧ minShards < currentShards))]
  rw [if_neg (by
    rintro ⟨hup, -⟩
    have : (3 / 10 : ℚ) < -(3 / 10) := lt_trans hup hdrop
    norm_num at this)]
  rw [if_pos ⟨hdrop, hc⟩]
  rcases le_or_lt minShards (currentShards - currentShards.tdiv 2) with hcase | hcase
  · rw [if_neg (by omega), max_eq_right hcase]
  · rw [if_pos hcase, max_eq_left (le_of_lt hcase)]

/-- Claim C6 witness: the amended formula instantiated at the
counterexample's inputs gives `max 2 (10 − 5) = 5`. -/
theorem enhanced_scale_down_removes_half_witness :
    EnhancedAdjustShards 0 1000000000 10 100 10 2 80
      = max 2 (10 - (10 : Int).tdiv 2) := by
  exact enhanced_scale_down_removes_half 0 1000000000 10 100 10 2 80
    (by norm_num) (by norm_num) (by norm_num) (by norm_num)

/-- Claim C2 witness: three increments at 100 ms, 120 ms and 150 ms
(bucket 1 of a 100 ms precision, 1 s window, 10-slot, 4-shard
configuration) observed at 500 ms report 3 on both variants. -/
theorem same_bucket_incrs_report_k_witness :
    ((NewLockFree 100000000 1000000000 10).IncrAll
          [100000000, 120000000, 150000000]).map (fun st => st.CurrentQPS 500000000)
        = some ((((3 : Int)) * 1000000000).tdiv 1000000000)
      ∧ ((NewSharded 100000000 1000000000 4 10).IncrAll
          [100000000, 120000000, 150000000]).CurrentQPS 500000000
        = (((3 : Int)) * 1000000000).tdiv 1000000000 := by
  have h := same_bucket_incrs_report_k 100000000 1000000000 10 4 100000000
    [120000000, 150000000] 500000000 1
    (by norm_num) (by norm_num) (by norm_num) (by norm_num)
    (by decide) (by norm_num) (by norm_num)
    (by decide) (by norm_num)
  exact ⟨h.1, h.2.1⟩

/-! ### Claim C7 -/

/-- Claim C7 counterexample: `SetTokensForTest` stores its argument
with no clamping, so forcing 10 tokens into a bucket of burst 5 — the
spec's own token-bucket exhaustion scenario — leaves
`tokens ∉ [0, burst]` at the next observation. -/
theorem settokens_breaks_token_bound_counterexample :
    ((NewRateLimiter 10 5 false 0).SetTokensForTest 10).tokens = 10
      ∧ ¬ (((NewRateLimiter 10 5 false 0).SetTokensForTest 10).tokens
            ≤ ((NewRateLimiter 10 5 false 0).SetTokensForTest 10).burstSize) := by
  decide

/-- Claim C7 (amended): over any sequence of `Allow`, `SetRate`,
`SetEnabled` and `SetTokensForTest` operations on a fresh limiter, the
rejected count plus the number of `Allow` calls that returned true
while the limiter was enabled always equals the total request count —
unconditionally, for every operation sequence.  The token bound
`tokens ∈ [0, burst]` holds for non-negative burst provided every
`SetTokensForTest` argument itself lies in `[0, burst]`: the setter
stores its argument unchecked, so out-of-range arguments break the
bound, as the counterexample shows. -/
theorem limiter_tokens_bounded_and_accounted
    (rate burst : Int) (adaptive : Bool) (t0 : Int) (ops : List LimiterOp) :
    (0 ≤ burst → ops.all (tokensOpOK burst) = true →
        0 ≤ (RunOps (NewRateLimiter rate burst adaptive t0) ops).1.tokens
          ∧ (RunOps (NewRateLimiter rate burst adaptive t0) ops).1.tokens ≤ burst)
      ∧ (RunOps (NewRateLimiter rate burst adaptive t0) ops).1.rejectedCount
          + (RunOps (NewRateLimiter rate burst adaptive t0) ops).2
        = (RunOps (NewRateLimiter rate burst adaptive t0) ops).1.totalCount := by
  constructor
  · intro hburst hops
    exact (RunOps_invariant ops (NewRateLimiter rate burst adaptive t0) hburst
      (le_refl burst) hops).1
  · have h2 := RunOps_accounting ops (NewRateLimiter rate burst adaptive t0)
    have hz1 : (NewRateLimiter rate burst adaptive t0).rejectedCount = 0 := rfl
    have hz2 : (NewRateLimiter rate burst adaptive t0).totalCount = 0 := rfl
    omega

/-- Claim C7 witness: the token bound instantiated on a concrete
in-range run — rate 10, burst 5, two admits, an in-range forced token
count, a disabled bypass, re-enabling, a rate change and one more
call — and the unconditional accounting identity instantiated on a run
that forces an out-of-range token count of 10 against burst 5, the
very class the token-bound side condition excludes. -/
theorem limiter_tokens_bounded_and_accounted_witness :
    (0 ≤ (RunOps (NewRateLimiter 10 5 false 0)
            [.allow 0, .allow 0, .setTokensForTest 3, .setEnabled false, .allow 5,
             .setEnabled true, .setRate 100, .allow 1000000000]).1.tokens
        ∧ (RunOps (NewRateLimiter 10 5 false 0)
            [.allow 0, .allow 0, .setTokensForTest 3, .setEnabled false, .allow 5,
             .setEnabled true, .setRate 100, .allow 1000000000]).1.tokens ≤ 5)
      ∧ (RunOps (NewRateLimiter 10 5 false 0)
            [.allow 0, .setTokensForTest 10, .allow 1, .setEnabled false, .allow 2,
             .setEnabled true, .allow 3]).1.rejectedCount
          + (RunOps (NewRateLimiter 10 5 false 0)
            [.allow 0, .setTokensForTest 10, .allow 1, .setEnabled false, .allow 2,
             .setEnabled true, .allow 3]).2
        = (RunOps (NewRateLimiter 10 5 false 0)
            [.allow 0, .setTokensForTest 10, .allow 1, .setEnabled false, .allow 2,
             .setEnabled true, .allow 3]).1.totalCount := by
  exact ⟨(limiter_tokens_bounded_and_accounted 10 5 false 0
      [.allow 0, .allow 0, .setTokensForTest 3, .setEnabled false, .allow 5,
       .setEnabled true, .setRate 100, .allow 1000000000]).1 (by norm_num) (by decide),
    (limiter_tokens_bounded_and_accounted 10 5 false 0
      [.allow 0, .setTokensForTest 10, .allow 1, .setEnabled false, .allow 2,
       .setEnabled true, .allow 3]).2⟩

/-! ### Claim C9 -/

/-- Claim C9: an admitted `/collect` request (lifecycle running,
limiter admitting) whose body parses to a count `k ≥ 0` performs
exactly `k` `Incr` calls and returns 202, in both the gin and the
fasthttp handler; the lifecycle and limiter permits are consumed before
the body is looked at, so the resulting limiter state is exactly the
post-`Allow` state and the lifecycle saw one `StartRequest` and its
deferred `EndRequest` — including when `k = 0`, which is admitted and
performs no increment. -/
theorem collect_admitted_increments_k_times
    (gs : EnhancedGracefulShutdown) (rl : RateLimiter) (now k : Int)
    (hgs : gs.shutdownStarted = false)
    (hallow : (rl.Allow now).2 = true)
    (hk : 0 ≤ k) :
    ((QPSHandlerCollect gs rl now (some k)).status = 202
        ∧ ((QPSHandlerCollect gs rl now (some k)).incrCalls : Int) = k
        ∧ (QPSHandlerCollect gs rl now (some k)).rl = (rl.Allow now).1
        ∧ (QPSHandlerCollect gs rl now (some k)).gs = gs.StartRequest.1.EndRequest)
      ∧ ((FastHTTPCollect gs rl now (some k)).status = 202
        ∧ ((FastHTTPCollect gs rl now (some k)).incrCalls : Int) = k
        ∧ (FastHTTPCollect gs rl now (some k)).rl = (rl.Allow now).1
        ∧ (FastHTTPCollect gs rl now (some k)).gs = gs.StartRequest.1.EndRequest) := by
  unfold QPSHandlerCollect FastHTTPCollect EnhancedGracefulShutdown.StartRequest
  simp [hgs, hallow, Int.toNat_of_nonneg hk]

/-- Claim C9 witness: an admitted request with count 0 on a fresh
lifecycle and a fresh limiter of burst 5 returns 202, performs no
increment, and has consumed the limiter permit (one request counted,
one token gone) in both handlers. -/
theorem collect_admitted_increments_k_times_witness :
    ((QPSHandlerCollect (NewEnhancedGracefulShutdown 1000000000 2000000000)
          (NewRateLimiter 10 5 false 0) 0 (some 0)).status = 202
        ∧ ((QPSHandlerCollect (NewEnhancedGracefulShutdown 1000000000 2000000000)
          (NewRateLimiter 10 5 false 0) 0 (some 0)).incrCalls : Int) = 0
        ∧ (QPSHandlerCollect (NewEnhancedGracefulShutdown 1000000000 2000000000)
          (NewRateLimiter 10 5 false 0) 0 (some 0)).rl
            = ((NewRateLimiter 10 5 false 0).Allow 0).1
        ∧ (QPSHandlerCollect (NewEnhancedGracefulShutdown 1000000000 2000000000)
          (NewRateLimiter 10 5 false 0) 0 (some 0)).gs
            = (NewEnhancedGracefulShutdown 1000000000 2000000000).StartRequest.1.EndRequest)
      ∧ ((FastHTTPCollect (NewEnhancedGracefulShutdown 1000000000 2000000000)
          (NewRateLimiter 10 5 false 0) 0 (some 0)).status = 202
        ∧ ((FastHTTPCollect (NewEnhancedGracefulShutdown 1000000000 2000000000)
          (NewRateLimiter 10 5 false 0) 0 (some 0)).incrCalls : Int) = 0
        ∧ (FastHTTPCollect (NewEnhancedGracefulShutdown 1000000000 2000000000)
          (NewRateLimiter 10 5 false 0) 0 (some 0)).rl
            = ((NewRateLimiter 10 5 false 0).Allow 0).1
        ∧ (FastHTTPCollect (NewEnhancedGracefulShutdown 1000000000 2000000000)
          (NewRateLimiter 10 5 false 0) 0 (some 0)).gs
            = (NewEnhancedGracefulShutdown 1000000000 2000000000).StartRequest.1.EndRequest) := by
  exact collect_admitted_increments_k_times
    (NewEnhancedGracefulShutdown 1000000000 2000000000) (NewRateLimiter 10 5 false 0) 0 0
    (by decide) (by decide) (by norm_num)

/-! ### Claim C10 -/

/-- Claim C10: an admitted `/collect` request whose body parses to a
negative count is not answered with 400 — both handlers return 202 and
perform zero increments, because the loop
`for i := int64(0); i < req.Count; i++` runs no iteration for a
negative bound. -/
theorem collect_negative_count_accepted_no_incr
    (gs : EnhancedGracefulShutdown) (rl : RateLimiter) (now k : Int)
    (hgs : gs.shutdownStarted = false)
    (hallow : (rl.Allow now).2 = true)
    (hk : k < 0) :
    ((QPSHandlerCollect gs rl now (some k)).status = 202
        ∧ (QPSHandlerCollect gs rl now (some k)).incrCalls = 0
        ∧ (QPSHandlerCollect gs rl now (some k)).status ≠ 400)
      ∧ ((FastHTTPCollect gs rl now (some k)).status = 202
        ∧ (FastHTTPCollect gs rl now (some k)).incrCalls = 0
        ∧ (FastHTTPCollect gs rl now (some k)).status ≠ 400) := by
  unfold QPSHandlerCollect FastHTTPCollect EnhancedGracefulShutdown.StartRequest
  simp [hgs, hallow, Int.toNat_of_nonpos (le_of_lt hk)]

/-- Claim C10 witness: an admitted request with count −5 returns 202
with zero increments in both handlers. -/
theorem collect_negative_count_accepted_no_incr_witness :
    ((QPSHandlerCollect (NewEnhancedGracefulShutdown 1000000000 2000000000)
          (NewRateLimiter 10 5 false 0) 0 (some (-5))).status = 202
        ∧ (QPSHandlerCollect (NewEnhancedGracefulShutdown 1000000000 2000000000)
          (NewRateLimiter 10 5 false 0) 0 (some (-5))).incrCalls = 0
        ∧ (QPSHandlerCollect (NewEnhancedGracefulShutdown 1000000000 2000000000)
          (NewRateLimiter 10 5 false 0) 0 (some (-5))).status ≠ 400)
      ∧ ((FastHTTPCollect (NewEnhancedGracefulShutdown 1000000000 2000000000)
          (NewRateLimiter 10 5 false 0) 0 (some (-5))).status = 202
        ∧ (FastHTTPCollect (NewEnhancedGracefulShutdown 1000000000 2000000000)
          (NewRateLimiter 10 5 false 0) 0 (some (-5))).incrCalls = 0
        ∧ (FastHTTPCollect (NewEnhancedGracefulShutdown 1000000000 2000000000)
          (NewRateLimiter 10 5 false 0) 0 (some (-5))).status ≠ 400) := by
  exact collect_negative_count_accepted_no_incr
    (NewEnhancedGracefulShutdown 1000000000 2000000000) (NewRateLimiter 10 5 false 0) 0 (-5)
    (by decide) (by decide) (by norm_num)

end QPSCounter
